import Mathlib

/-!
Verification of the `stable-diffusion.h` C boundary
(`src/deps/stable-diffusion.cpp/include/stable-diffusion.h`).

The repository fragment contains only the header: forward declarations,
two enumerations, and the `sd_image_t` struct.  The declarations (types,
enum ordinals, parameter lists) are embedded directly from the header.
The behaviour of the external engine (context creation, generation,
release, introspection) is not present in the repository, so it is
modelled from the specification's contract sentences; those definitions
carry a `Modelled from the spec:` doc comment.
-/

namespace SD

/-- Sampling methods for the diffusion process, embedded from the
`sd_sample_method_t` enum of the header. -/
inductive sd_sample_method_t where
  | SD_SAMPLE_EULER_A
  | SD_SAMPLE_EULER
  | SD_SAMPLE_HEUN
  | SD_SAMPLE_DPM2
  | SD_SAMPLE_DPMPP_2S_A
  | SD_SAMPLE_DPMPP_2M
  | SD_SAMPLE_DPMPP_2M_V2
  | SD_SAMPLE_LCM
  deriving DecidableEq, Repr

/-- The numeric ordinal each enumerator is declared with in the header
(`SD_SAMPLE_EULER_A = 0`, ..., `SD_SAMPLE_LCM = 7`). -/
def sd_sample_method_t.toOrdinal : sd_sample_method_t → Nat
  | .SD_SAMPLE_EULER_A => 0
  | .SD_SAMPLE_EULER => 1
  | .SD_SAMPLE_HEUN => 2
  | .SD_SAMPLE_DPM2 => 3
  | .SD_SAMPLE_DPMPP_2S_A => 4
  | .SD_SAMPLE_DPMPP_2M => 5
  | .SD_SAMPLE_DPMPP_2M_V2 => 6
  | .SD_SAMPLE_LCM => 7

/-- Model types, embedded from the `sd_model_type_t` enum of the header. -/
inductive sd_model_type_t where
  | SD_TYPE_SD1
  | SD_TYPE_SD2
  | SD_TYPE_SDXL
  | SD_TYPE_SD3
  deriving DecidableEq, Repr

/-- Ordinals declared for `sd_model_type_t` in the header. -/
def sd_model_type_t.toOrdinal : sd_model_type_t → Nat
  | .SD_TYPE_SD1 => 0
  | .SD_TYPE_SD2 => 1
  | .SD_TYPE_SDXL => 2
  | .SD_TYPE_SD3 => 3

/-- C types appearing in the header's declarations. -/
inductive CType where
  | int32
  | int64
  | floatT
  | boolT
  | charPtr
  | sdCtxPtr
  | sdImagePtr
  | sampleMethod
  | voidT
  deriving DecidableEq, Repr

/-- Bit width of the integral C types of the header (`int` is 32-bit,
`int64_t` is 64-bit on every platform the header targets via
`<stdint.h>`). -/
def CType.bits : CType → Option Nat
  | .int32 => some 32
  | .int64 => some 64
  | _ => none

/-- A signed value is representable in an integral C type:
`-2^(b-1) ≤ v < 2^(b-1)` for its bit width `b`. -/
def CType.inRange (t : CType) (v : Int) : Prop :=
  match t.bits with
  | some b => -(2 ^ (b - 1) : Int) ≤ v ∧ v < (2 ^ (b - 1) : Int)
  | none => False

instance (t : CType) (v : Int) : Decidable (t.inRange v) := by
  unfold CType.inRange
  cases t.bits with
  | none => exact inferInstanceAs (Decidable False)
  | some b => exact inferInstanceAs (Decidable (_ ∧ _))

/-- The parameter list of `txt2img` exactly as declared in the header:
names and C types, in order. -/
def txt2imgParams : List (String × CType) :=
  [("ctx", .sdCtxPtr),
   ("prompt", .charPtr),
   ("negative_prompt", .charPtr),
   ("clip_skip", .int32),
   ("cfg_scale", .floatT),
   ("width", .int32),
   ("height", .int32),
   ("sample_method", .sampleMethod),
   ("sample_steps", .int32),
   ("seed", .int64),
   ("batch_count", .int32)]

/-- Type of a named `txt2img` parameter, looked up in the declared list. -/
def txt2imgParamType (name : String) : Option CType :=
  (txt2imgParams.find? (fun p => p.fst == name)).map (·.snd)

/-- The parameter lists of the three introspection declarations of the
header: each takes `void`, i.e. no parameters at all. -/
def sd_get_backend_info_params : List (String × CType) := []

/-- Parameter list of `sd_cuda_available` as declared: none. -/
def sd_cuda_available_params : List (String × CType) := []

/-- Parameter list of `sd_get_version` as declared: none. -/
def sd_get_version_params : List (String × CType) := []

/-- Return types of the three introspection declarations. -/
def sd_get_backend_info_ret : CType := .charPtr

/-- Return type of `sd_cuda_available` as declared. -/
def sd_cuda_available_ret : CType := .boolT

/-- Return type of `sd_get_version` as declared. -/
def sd_get_version_ret : CType := .charPtr

/-- Image data returned from generation, embedded from the header's
`sd_image_t` struct: RGBA pixel bytes in row-major order, with the
`width`, `height` and `channels` fields declared as C `int`. -/
structure sd_image_t where
  data : List Nat
  width : Int
  height : Int
  channels : Int
  deriving DecidableEq, Repr

/-- Modelled from the spec: the opaque `sd_ctx` is "a loaded model
instance ready to generate images"; the header gives no fields, so the
model records the creation inputs that identify the loaded model. -/
structure sd_ctx where
  modelPath : String
  vaeDecodeOnly : Bool
  nThreads : Int
  vaeTiling : Bool
  deriving DecidableEq, Repr

/-- Modelled from the spec: the external engine's fixed, per-process
facts that this boundary merely forwards — which on-disk paths hold a
loadable model, whether the engine's resources let a generation call
succeed, and whether CUDA is available.  None of this is implemented in
the repository. -/
structure SdEnv where
  validPath : String → Bool
  genOk : Bool
  cudaAvailable : Bool

/-- Modelled from the spec: the caller-visible resource state — which
context handles and which image results are currently live.  Only the
release operations touch it. -/
structure SdWorld where
  liveContexts : List sd_ctx
  liveImages : List (List sd_image_t)
  deriving DecidableEq, Repr

/-- Mixing step for the deterministic pixel model, on 32-bit naturals. -/
def mixNat (a b : Nat) : Nat := (a * 1000003 + b + 1) % 2 ^ 32

/-- Fold a string into the pixel-model hash. -/
def hashString (h : Nat) (s : String) : Nat :=
  s.data.foldl (fun acc c => mixNat acc c.toNat) h

/-- Injection of an integer into the pixel-model hash domain. -/
def intEnc (z : Int) : Nat := 2 * z.natAbs + (if z < 0 then 1 else 0)

/-- Modelled from the spec: the seed convention of the generation call —
`-1` requests a random seed (drawn from the engine's generator state
`rng`), every other value is taken literally. -/
def eff_seed (seed rng : Int) : Int := if seed = -1 then rng else seed

/-- Modelled from the spec: the engine's default CLIP-skip value (the
header only reserves `-1` to request it). -/
def default_clip_skip : Int := 1

/-- Modelled from the spec: the layer-skip convention — `-1` selects the
engine's default CLIP-skip value, every other value is taken literally. -/
def eff_clip_skip (clip_skip : Int) : Int :=
  if clip_skip = -1 then default_clip_skip else clip_skip

/-- Modelled from the spec: the deterministic hash seeding an image's
pixel content, a function of the loaded model, the prompts, the
effective tuning values, the dimensions, the sampling method, the step
count, the effective seed and the image's index in the batch. -/
def txt2imgHash (c : sd_ctx) (prompt negative_prompt : String)
    (clip width height : Int) (sample_method : sd_sample_method_t)
    (sample_steps : Int) (seed : Int) (i : Nat) : Nat :=
  mixNat (mixNat (mixNat (mixNat (mixNat (mixNat
    (hashString (hashString (hashString 5381 c.modelPath) prompt) negative_prompt)
    (intEnc clip)) (intEnc width)) (intEnc height))
    (sample_method.toOrdinal)) (mixNat (intEnc sample_steps) (intEnc seed))) i

/-- Modelled from the spec: one pixel byte of the generated image. -/
def sd_pixel (base i : Nat) : Nat := mixNat base i % 256

/-- Modelled from the spec: the row-major RGBA byte buffer of one
generated image — 4 bytes per pixel, `width * height` pixels. -/
def sd_image_data (base w h : Nat) : List Nat :=
  (List.range (w * h * 4)).map (sd_pixel base)

/-- Modelled from the spec: `sd_ctx_create` — the implementation is not
in the repository (the header only declares it).  "Returns a valid
handle or a failure signal (absent handle); no partial/degraded handle
is defined — creation is all-or-nothing": for a valid model path the
loaded context is returned, for an invalid or missing path the absent
sentinel `none`. -/
def sd_ctx_create (env : SdEnv) (model_path : String)
    (vae_path taesd_path lora_model_dir : Option String)
    (vae_decode_only : Bool) (n_threads : Int)
    (vae_tiling free_params_immediately : Bool) : Option sd_ctx :=
  if env.validPath model_path then
    some { modelPath := model_path, vaeDecodeOnly := vae_decode_only,
           nThreads := n_threads, vaeTiling := vae_tiling }
  else
    none

/-- Modelled from the spec: `sd_ctx_free` — not implemented in the
repository.  Releases the resources of a handle; "accepts an absent
handle as a no-op". -/
def sd_ctx_free (w : SdWorld) (ctx : Option sd_ctx) : SdWorld :=
  match ctx with
  | none => w
  | some c => { w with liveContexts := w.liveContexts.erase c }

/-- Modelled from the spec: `sd_free_image` — not implemented in the
repository.  Releases a returned image buffer or sequence; "accepts an
absent value as a no-op". -/
def sd_free_image (w : SdWorld) (image : Option (List sd_image_t)) : SdWorld :=
  match image with
  | none => w
  | some imgs => { w with liveImages := w.liveImages.erase imgs }

/-- Modelled from the spec: `txt2img` — the diffusion engine is not in
the repository.  With an absent context the call fails; otherwise it
fails exactly when the engine cannot generate (`env.genOk` false),
signalled by the absent result; on success it returns the contiguous
sequence of `batch_count` image descriptors, each of the requested
dimensions with 4 (RGBA) channels, whose pixel bytes are a deterministic
function of the loaded model, the prompts, the tuning values and the
effective seed.  The boundary checks neither the multiple-of-8
constraint on the dimensions nor any other parameter. -/
def txt2img (env : SdEnv) (ctx : Option sd_ctx)
    (prompt negative_prompt : String) (clip_skip : Int) (cfg_scale : Rat)
    (width height : Int) (sample_method : sd_sample_method_t)
    (sample_steps : Int) (seed : Int) (batch_count : Int) (rng : Int) :
    Option (List sd_image_t) :=
  match ctx with
  | none => none
  | some c =>
    if env.genOk then
      some ((List.range batch_count.toNat).map (fun i =>
        { data := sd_image_data
            (txt2imgHash c prompt negative_prompt (eff_clip_skip clip_skip)
              width height sample_method sample_steps (eff_seed seed rng) i)
            width.toNat height.toNat,
          width := width, height := height, channels := 4 }))
    else
      none

/-- Modelled from the spec: `sd_get_backend_info` — not implemented in
the repository.  Returns the static human-readable backend string (the
header's examples: "CUDA", "CPU"); it takes no context handle and is
independent of the resource state `w`. -/
def sd_get_backend_info (env : SdEnv) (_w : SdWorld) : String :=
  if env.cudaAvailable then "CUDA" else "CPU"

/-- Modelled from the spec: `sd_cuda_available` — not implemented in the
repository.  Reports whether CUDA acceleration is available; no context
handle, no failure channel, independent of the resource state. -/
def sd_cuda_available (env : SdEnv) (_w : SdWorld) : Bool :=
  env.cudaAvailable

/-- Modelled from the spec: `sd_get_version` — not implemented in the
repository.  Returns the static library version string (the header's
example: "1.0.0"); no context handle, independent of the resource
state. -/
def sd_get_version (_env : SdEnv) (_w : SdWorld) : String := "1.0.0"

end SD

namespace SD

/-- C6: the `sd_sample_method_t` enumeration assigns exactly the ordinals
0 through 7, in order, to Euler Ancestral (the fast ancestral method),
Euler (the deterministic baseline), Heun (higher quality, slower), DPM2
(a second-order method), DPM++ 2S Ancestral (its ancestral variant),
DPM++ 2M and DPM++ 2M v2 (the two variants of the recommended multistep
method), and LCM (the very fast method requiring a distilled model);
the assignment is a bijection onto 0..7, so no ordinal is reused. -/
theorem sample_method_ordinals :
    [sd_sample_method_t.SD_SAMPLE_EULER_A,
     sd_sample_method_t.SD_SAMPLE_EULER,
     sd_sample_method_t.SD_SAMPLE_HEUN,
     sd_sample_method_t.SD_SAMPLE_DPM2,
     sd_sample_method_t.SD_SAMPLE_DPMPP_2S_A,
     sd_sample_method_t.SD_SAMPLE_DPMPP_2M,
     sd_sample_method_t.SD_SAMPLE_DPMPP_2M_V2,
     sd_sample_method_t.SD_SAMPLE_LCM].map sd_sample_method_t.toOrdinal
      = [0, 1, 2, 3, 4, 5, 6, 7] := by
  decide

/-- A concrete environment for exercising the theorems on closed inputs:
one loadable model path, a generation-capable engine, CUDA present. -/
def wEnv : SdEnv :=
  { validPath := fun s => s == "model.safetensors",
    genOk := true,
    cudaAvailable := true }

/-- A concrete loaded context for exercising the theorems. -/
def wCtx : sd_ctx :=
  { modelPath := "model.safetensors", vaeDecodeOnly := true,
    nThreads := 4, vaeTiling := false }

/-- A concrete prompt for the witnesses. -/
def wPrompt : String := "cat"

/-- A concrete (empty) negative prompt for the witnesses. -/
def wNeg : String := ""

/-- C1: for every txt2img call with a valid (present) context, width and
height multiples of 8, and batch_count 1 that returns a present result,
that result holds exactly one image descriptor, and its width, height
and channels fields are the requested width, the requested height
and 4. -/
theorem txt2img_batch1_shape (env : SdEnv) (c : sd_ctx)
    (prompt negative_prompt : String) (clip_skip : Int) (cfg_scale : Rat)
    (width height : Int) (m : sd_sample_method_t) (steps seed rng : Int)
    (h8w : width % 8 = 0) (h8h : height % 8 = 0)
    (hs : (txt2img env (some c) prompt negative_prompt clip_skip cfg_scale
            width height m steps seed 1 rng).isSome) :
    ((txt2img env (some c) prompt negative_prompt clip_skip cfg_scale
        width height m steps seed 1 rng).getD []).length = 1 ∧
    ∀ img ∈ (txt2img env (some c) prompt negative_prompt clip_skip cfg_scale
        width height m steps seed 1 rng).getD [],
      img.width = width ∧ img.height = height ∧ img.channels = 4 := by
  have hg : env.genOk = true := by
    by_contra hng
    rw [Bool.not_eq_true] at hng
    simp [txt2img, hng] at hs
  constructor
  · simp [txt2img, hg]
  · intro img himg
    simp only [txt2img, hg, if_true, Option.getD_some, List.mem_map] at himg
    obtain ⟨i, _, rfl⟩ := himg
    exact ⟨rfl, rfl, rfl⟩

/-- Witness for C1 at concrete inputs (8 × 8, batch 1, seed 5). -/
theorem txt2img_batch1_shape_witness :
    ((txt2img wEnv (some wCtx) wPrompt wNeg (-1) 7 8 8
        sd_sample_method_t.SD_SAMPLE_EULER_A 20 5 1 0).getD []).length = 1 :=
  (txt2img_batch1_shape wEnv wCtx wPrompt wNeg (-1) 7 8 8
    sd_sample_method_t.SD_SAMPLE_EULER_A 20 5 0
    (by decide) (by decide) (by decide)).1

/-- C2: two txt2img calls against the same loaded context with the same
explicit arguments — in particular the same seed (≠ -1), prompt,
dimensions and step count — return identical results bit for bit, even
when the engine's random-generator state differs between the calls; no
such independence is stated for the sentinel seed -1, which draws on
that state. -/
theorem txt2img_deterministic (env : SdEnv) (ctx : Option sd_ctx)
    (prompt negative_prompt : String) (clip_skip : Int) (cfg_scale : Rat)
    (width height : Int) (m : sd_sample_method_t)
    (steps seed batch_count rng1 rng2 : Int) (h : seed ≠ -1) :
    txt2img env ctx prompt negative_prompt clip_skip cfg_scale
        width height m steps seed batch_count rng1
      = txt2img env ctx prompt negative_prompt clip_skip cfg_scale
        width height m steps seed batch_count rng2 := by
  simp [txt2img, eff_seed, h]

/-- Witness for C2: seed 5 gives the same output under generator
states 0 and 99. -/
theorem txt2img_deterministic_witness :
    txt2img wEnv (some wCtx) wPrompt wNeg (-1) 7 8 8
        sd_sample_method_t.SD_SAMPLE_EULER_A 20 5 1 0
      = txt2img wEnv (some wCtx) wPrompt wNeg (-1) 7 8 8
        sd_sample_method_t.SD_SAMPLE_EULER_A 20 5 1 99 :=
  txt2img_deterministic wEnv (some wCtx) wPrompt wNeg (-1) 7 8 8
    sd_sample_method_t.SD_SAMPLE_EULER_A 20 5 1 0 99 (by decide)

/-- C3: a txt2img call with batch_count N > 1 that returns a present
result returns exactly N image descriptors (one contiguous sequence of
length N); a failing generation returns the absent result. -/
theorem txt2img_batch_count (env : SdEnv) (c : sd_ctx)
    (prompt negative_prompt : String) (clip_skip : Int) (cfg_scale : Rat)
    (width height : Int) (m : sd_sample_method_t)
    (steps seed batch_count rng : Int) (hbc : 1 < batch_count) :
    ((txt2img env (some c) prompt negative_prompt clip_skip cfg_scale
        width height m steps seed batch_count rng).isSome →
      ((txt2img env (some c) prompt negative_prompt clip_skip cfg_scale
        width height m steps seed batch_count rng).getD []).length
        = batch_count.toNat) ∧
    (env.genOk = false →
      txt2img env (some c) prompt negative_prompt clip_skip cfg_scale
        width height m steps seed batch_count rng = none) := by
  constructor
  · intro hs
    have hg : env.genOk = true := by
      by_contra hng
      rw [Bool.not_eq_true] at hng
      simp [txt2img, hng] at hs
    simp [txt2img, hg]
  · intro hng
    simp [txt2img, hng]

/-- Witness for C3 at batch_count 2. -/
theorem txt2img_batch_count_witness :
    ((txt2img wEnv (some wCtx) wPrompt wNeg (-1) 7 8 8
        sd_sample_method_t.SD_SAMPLE_EULER_A 20 5 2 0).getD []).length
      = (2 : Int).toNat :=
  (txt2img_batch_count wEnv wCtx wPrompt wNeg (-1) 7 8 8
    sd_sample_method_t.SD_SAMPLE_EULER_A 20 5 2 0 (by decide)).1 (by decide)

/-- C4: context creation is all-or-nothing — a valid model path yields a
present handle, an invalid or missing path yields the absent sentinel,
and every outcome is one of exactly these two (no partial handle). -/
theorem sd_ctx_create_all_or_nothing (env : SdEnv) (p : String)
    (vp tp ld : Option String) (dec : Bool) (nt : Int) (til fr : Bool) :
    (env.validPath p = true →
      ∃ c, sd_ctx_create env p vp tp ld dec nt til fr = some c) ∧
    (env.validPath p = false →
      sd_ctx_create env p vp tp ld dec nt til fr = none) ∧
    (sd_ctx_create env p vp tp ld dec nt til fr = none ∨
      ∃ c, sd_ctx_create env p vp tp ld dec nt til fr = some c) := by
  constructor
  · intro h
    refine ⟨{ modelPath := p, vaeDecodeOnly := dec,
              nThreads := nt, vaeTiling := til }, ?_⟩
    simp [sd_ctx_create, h]
  constructor
  · intro h
    simp [sd_ctx_create, h]
  · by_cases h : env.validPath p = true
    · refine Or.inr ⟨{ modelPath := p, vaeDecodeOnly := dec,
                       nThreads := nt, vaeTiling := til }, ?_⟩
      simp [sd_ctx_create, h]
    · rw [Bool.not_eq_true] at h
      exact Or.inl (by simp [sd_ctx_create, h])

/-- Witness for C4: a missing path yields the absent sentinel. -/
theorem sd_ctx_create_all_or_nothing_witness :
    sd_ctx_create wEnv ("missing.ckpt") none none none true 4 false true
      = none :=
  (sd_ctx_create_all_or_nothing wEnv ("missing.ckpt") none none none
    true 4 false true).2.1 (by decide)

/-- C5: releasing an absent context handle and releasing an absent image
result are both no-ops: the resource state is returned unchanged. -/
theorem free_null_is_noop (w : SdWorld) :
    sd_ctx_free w none = w ∧ sd_free_image w none = w :=
  ⟨rfl, rfl⟩

/-- C7: seed -1 is the unique sentinel requesting a random seed (every
other seed is taken literally, and only -1 always reproduces the
generator state), clip_skip -1 selects the default while every other
value is taken literally, and the multiple-of-8 constraint on the
dimensions is not checked at this boundary: success depends only on the
engine, for every width and height. -/
theorem txt2img_sentinels (env : SdEnv) (c : sd_ctx)
    (prompt negative_prompt : String) (clip_skip : Int) (cfg_scale : Rat)
    (m : sd_sample_method_t) (steps seed batch_count rng : Int) :
    (eff_seed (-1) rng = rng) ∧
    (seed ≠ -1 → eff_seed seed rng = seed) ∧
    ((∀ r : Int, eff_seed seed r = r) → seed = -1) ∧
    (eff_clip_skip (-1) = default_clip_skip) ∧
    (clip_skip ≠ -1 → eff_clip_skip clip_skip = clip_skip) ∧
    (∀ width height : Int,
      (txt2img env (some c) prompt negative_prompt clip_skip cfg_scale
        width height m steps seed batch_count rng).isSome = env.genOk) := by
  refine ⟨by simp [eff_seed], fun h => by simp [eff_seed, h], ?_,
          by simp [eff_clip_skip], fun h => by simp [eff_clip_skip, h], ?_⟩
  · intro hall
    by_contra hne
    have h1 := hall (seed + 1)
    rw [eff_seed, if_neg hne] at h1
    omega
  · intro width height
    by_cases hg : env.genOk = true <;>
      simp_all [txt2img, Bool.not_eq_true]

/-- Witness for C7: the sentinel draws the generator state and a
non-sentinel clip_skip is literal. -/
theorem txt2img_sentinels_witness :
    eff_seed (-1) 42 = 42 ∧ eff_clip_skip 3 = 3 :=
  ⟨(txt2img_sentinels wEnv wCtx wPrompt wNeg 3 7
      sd_sample_method_t.SD_SAMPLE_EULER_A 20 5 1 42).1,
   (txt2img_sentinels wEnv wCtx wPrompt wNeg 3 7
      sd_sample_method_t.SD_SAMPLE_EULER_A 20 5 1 42).2.2.2.2.1 (by decide)⟩

/-- C8: the backend-info and version queries return non-empty strings,
and within one process (one environment) the returned strings do not
vary from call to call, whatever the resource state. -/
theorem backend_version_nonempty_stable (env : SdEnv) (w w' : SdWorld) :
    0 < (sd_get_backend_info env w).length ∧
    0 < (sd_get_version env w).length ∧
    sd_get_backend_info env w = sd_get_backend_info env w' ∧
    sd_get_version env w = sd_get_version env w' := by
  refine ⟨?_, ?_, rfl, rfl⟩
  · unfold sd_get_backend_info
    by_cases h : env.cudaAvailable = true <;> simp [h] <;> decide
  · unfold sd_get_version
    decide

/-- C9: the three introspection declarations take no parameters at all
(in particular no context handle), return plain values (a string or a
boolean, never an optional), and their results are independent of the
resource state — so they may be called before any context exists and
after every context is freed. -/
theorem introspection_total_contextfree (env : SdEnv) (w w' : SdWorld) :
    sd_get_backend_info_params = [] ∧
    sd_cuda_available_params = [] ∧
    sd_get_version_params = [] ∧
    sd_get_backend_info_ret = CType.charPtr ∧
    sd_cuda_available_ret = CType.boolT ∧
    sd_get_version_ret = CType.charPtr ∧
    sd_get_backend_info env w = sd_get_backend_info env w' ∧
    sd_cuda_available env w = sd_cuda_available env w' ∧
    sd_get_version env w = sd_get_version env w' :=
  ⟨rfl, rfl, rfl, rfl, rfl, rfl, rfl, rfl, rfl⟩

/-- C10: the seed parameter of txt2img is declared `int64_t` while
width, height, sample_steps and batch_count are 32-bit `int`; hence the
64-bit range is exactly -2^63 ≤ s < 2^63, and every in-range seed other
than the sentinel -1 is taken literally and distinct seeds stay
distinct (each is a distinct reproducible seed). -/
theorem txt2img_seed_is_64bit (s t rng : Int)
    (hs : CType.inRange CType.int64 s) (hne : s ≠ -1) :
    txt2imgParamType ("seed") = some CType.int64 ∧
    txt2imgParamType ("width") = some CType.int32 ∧
    txt2imgParamType ("height") = some CType.int32 ∧
    txt2imgParamType ("sample_steps") = some CType.int32 ∧
    txt2imgParamType ("batch_count") = some CType.int32 ∧
    CType.bits CType.int64 = some 64 ∧
    CType.bits CType.int32 = some 32 ∧
    (CType.inRange CType.int64 s ↔ -(2 ^ 63 : Int) ≤ s ∧ s < (2 ^ 63 : Int)) ∧
    eff_seed s rng = s ∧
    (CType.inRange CType.int64 t → t ≠ -1 →
      eff_seed s rng = eff_seed t rng → s = t) := by
  refine ⟨rfl, rfl, rfl, rfl, rfl, rfl, rfl, Iff.rfl, by simp [eff_seed, hne], ?_⟩
  intro ht hnet heq
  simpa [eff_seed, hne, hnet] using heq

/-- Witness for C10: seed 5 is in the 64-bit range, non-sentinel, and
taken literally; the seed parameter is declared 64-bit. -/
theorem txt2img_seed_is_64bit_witness :
    txt2imgParamType ("seed") = some CType.int64 ∧ eff_seed 5 0 = 5 :=
  ⟨(txt2img_seed_is_64bit 5 7 0 (by decide) (by decide)).1,
   (txt2img_seed_is_64bit 5 7 0 (by decide) (by decide)).2.2.2.2.2.2.2.2.1⟩

end SD
